import Mathlib

/-!
Shallow embedding of `azurerm/internal/services/compute/virtual_machine.go`:
the expand/flatten translation helpers for the virtual-machine resource.

Configuration mappings (Terraform schema values) are modelled as typed
structures whose fields mirror the schema keys; Azure SDK objects are
modelled as structures with `Option` fields for nullable pointers.  The
two external collaborators that are not part of this file — the managed
disk ID parser (`parse.ManagedDiskID`) and the disks client
(`disksClient.Get`) — are passed in as function parameters, so that the
network-calling functions become pure functions of those parameters.
-/

/-- Azure SDK constant `compute.ResourceIdentityTypeNone`. -/
def ResourceIdentityTypeNone : String := "None"

/-- Azure SDK constant `compute.ResourceIdentityTypeSystemAssigned`. -/
def ResourceIdentityTypeSystemAssigned : String := "SystemAssigned"

/-- Azure SDK constant `compute.ResourceIdentityTypeUserAssigned`. -/
def ResourceIdentityTypeUserAssigned : String := "UserAssigned"

/-- Azure SDK constant `compute.ResourceIdentityTypeSystemAssignedUserAssigned`. -/
def ResourceIdentityTypeSystemAssignedUserAssigned : String := "SystemAssigned, UserAssigned"

/-- Azure SDK constant `compute.DiskCreateOptionTypesFromImage`. -/
def DiskCreateOptionTypesFromImage : String := "FromImage"

/-- Azure SDK constant `compute.DiskCreateOptionTypesEmpty`. -/
def DiskCreateOptionTypesEmpty : String := "Empty"

/-- Azure SDK constant `compute.DiskCreateOptionTypesAttach`. -/
def DiskCreateOptionTypesAttach : String := "Attach"

/-- One element of the `additional_capabilities` block: the schema has a
single optional boolean `ultra_ssd_enabled` (default false). -/
structure AdditionalCapabilitiesConfig where
  ultra_ssd_enabled : Bool
deriving Repr, DecidableEq

/-- Azure SDK `compute.AdditionalCapabilities`: one nullable boolean. -/
structure AdditionalCapabilities where
  UltraSSDEnabled : Option Bool := none
deriving Repr, DecidableEq

/-- Go `expandVirtualMachineAdditionalCapabilities`: starts from the zero
value and, when the block list is non-empty, copies the boolean in.
The Go function always returns a non-nil pointer. -/
def expandVirtualMachineAdditionalCapabilities
    (input : List AdditionalCapabilitiesConfig) : AdditionalCapabilities :=
  match input with
  | [] => {}
  | raw :: _ => { UltraSSDEnabled := some raw.ultra_ssd_enabled }

/-- Go `flattenVirtualMachineAdditionalCapabilities`: nil becomes the empty
list, otherwise a single block with the boolean defaulted to false. -/
def flattenVirtualMachineAdditionalCapabilities
    (input : Option AdditionalCapabilities) : List AdditionalCapabilitiesConfig :=
  match input with
  | none => []
  | some c => [{ ultra_ssd_enabled := c.UltraSSDEnabled.getD false }]

/-- One element of the `identity` block.  `identity_ids` is a
`schema.TypeSet`; the Go code reads it with `.List()`, so it is modelled
as the list returned by that call (the set's elements in some order). -/
structure IdentityConfig where
  type : String
  identity_ids : List String
deriving Repr, DecidableEq

/-- Azure SDK `compute.VirtualMachineIdentity`.  The Go field
`UserAssignedIdentities` is a `map[string]*...Value` whose values are
always the empty struct, so it is modelled as the finite set of its
keys. -/
structure VirtualMachineIdentity where
  Type' : String
  UserAssignedIdentities : Option (Finset String) := none
  PrincipalID : Option String := none
  TenantID : Option String := none
deriving DecidableEq

/-- Go `expandVirtualMachineIdentity`.  Empty block list yields the `None`
identity; a non-empty deduplicated id set is only legal for the two
`UserAssigned` kinds. -/
def expandVirtualMachineIdentity
    (input : List IdentityConfig) : Except String VirtualMachineIdentity :=
  match input with
  | [] => .ok { Type' := ResourceIdentityTypeNone }
  | raw :: _ =>
    let identityIds : Finset String := raw.identity_ids.toFinset
    if 0 < identityIds.card then
      if raw.type ≠ ResourceIdentityTypeUserAssigned ∧
          raw.type ≠ ResourceIdentityTypeSystemAssignedUserAssigned then
        .error "`identity_ids` can only be specified when `type` includes `UserAssigned`"
      else
        .ok { Type' := raw.type, UserAssignedIdentities := some identityIds }
    else
      .ok { Type' := raw.type }

/-- The flattened `identity` block.  The Go code returns `identity_ids`
by ranging over the map's keys, whose order Go does not specify; the
schema declares the attribute a set, so the keys are modelled as a
`Finset`. -/
structure FlatIdentity where
  type : String
  identity_ids : Finset String
  principal_id : String
  tenant_id : String
deriving DecidableEq

/-- Go `flattenVirtualMachineIdentity`: nil or the `None` kind flattens to
the empty list; otherwise one block with defaulted computed fields. -/
def flattenVirtualMachineIdentity
    (input : Option VirtualMachineIdentity) : List FlatIdentity :=
  match input with
  | none => []
  | some i =>
    if i.Type' = ResourceIdentityTypeNone then []
    else
      [{ type := i.Type',
         identity_ids := i.UserAssignedIdentities.getD ∅,
         principal_id := i.PrincipalID.getD "",
         tenant_id := i.TenantID.getD "" }]

/-- Azure SDK `compute.NetworkInterfaceReference` with its nested
properties struct inlined (`Primary` is the only field used). -/
structure NetworkInterfaceReference where
  ID : Option String
  Primary : Option Bool
deriving Repr, DecidableEq

/-- Go `expandVirtualMachineNetworkInterfaceIDs`: index 0 is primary. -/
def expandVirtualMachineNetworkInterfaceIDs
    (input : List String) : List NetworkInterfaceReference :=
  input.enum.map fun p =>
    { ID := some p.2, Primary := some (p.1 == 0) }

/-- Go `flattenVirtualMachineNetworkInterfaceIDs`: keeps the IDs that are
present, dropping entries with a nil ID. -/
def flattenVirtualMachineNetworkInterfaceIDs
    (input : Option (List NetworkInterfaceReference)) : List String :=
  match input with
  | none => []
  | some l => l.filterMap (·.ID)

/-- One element of the `diff_disk_settings` block. -/
structure DiffDiskSettingsConfig where
  option : String
deriving Repr, DecidableEq

/-- One element of the `os_disk` block.  Absent optional keys read as the
schema zero values: empty string, 0, false, empty list. -/
structure OSDiskConfig where
  caching : String
  storage_account_type : String
  diff_disk_settings : List DiffDiskSettingsConfig
  disk_encryption_set_id : String
  disk_size_gb : Int
  name : String
  write_accelerator_enabled : Bool
deriving Repr, DecidableEq

/-- Azure SDK `compute.DiskEncryptionSetParameters`. -/
structure DiskEncryptionSetParameters where
  ID : Option String := none
deriving Repr, DecidableEq

/-- Azure SDK `compute.ManagedDiskParameters`. -/
structure ManagedDiskParameters where
  StorageAccountType : String
  DiskEncryptionSet : Option DiskEncryptionSetParameters := none
  ID : Option String := none
deriving Repr, DecidableEq

/-- Azure SDK `compute.DiffDiskSettings` (field `Option` in Go). -/
structure DiffDiskSettings where
  Option' : String
deriving Repr, DecidableEq

/-- Azure SDK `compute.OSDisk` (the fields this module touches). -/
structure OSDisk where
  Caching : String
  ManagedDisk : Option ManagedDiskParameters
  WriteAcceleratorEnabled : Option Bool
  CreateOption : String
  OsType : String
  DiskSizeGB : Option Int := none
  DiffDiskSettings : Option DiffDiskSettings := none
  Name : Option String := none
deriving Repr, DecidableEq

/-- Go `expandVirtualMachineOSDisk`.  The Go code reads `input[0]` with no
length check, so the empty input list is a runtime failure, modelled as
`none`. -/
def expandVirtualMachineOSDisk
    (input : List OSDiskConfig) (osType : String) : Option OSDisk :=
  match input with
  | [] => none
  | raw :: _ =>
    let disk : OSDisk :=
      { Caching := raw.caching,
        ManagedDisk := some { StorageAccountType := raw.storage_account_type },
        WriteAcceleratorEnabled := some raw.write_accelerator_enabled,
        CreateOption := DiskCreateOptionTypesFromImage,
        OsType := osType }
    let disk := if raw.disk_size_gb > 0 then
        { disk with DiskSizeGB := some raw.disk_size_gb }
      else disk
    let disk := match raw.diff_disk_settings with
      | [] => disk
      | diffDiskRaw :: _ =>
        { disk with DiffDiskSettings := some { Option' := diffDiskRaw.option } }
    let disk := if raw.disk_encryption_set_id ≠ "" then
        { disk with ManagedDisk := disk.ManagedDisk.map fun md =>
            { md with DiskEncryptionSet := some { ID := some raw.disk_encryption_set_id } } }
      else disk
    let disk := if raw.name ≠ "" then { disk with Name := some raw.name } else disk
    some disk

/-- Result of `parse.ManagedDiskID` (defined outside this file): the
resource-group and resource name components of a managed disk ID. -/
structure ParsedManagedDiskId where
  ResourceGroup : String
  Name : String
deriving Repr, DecidableEq

/-- Azure SDK `compute.DiskSku`. -/
structure DiskSku where
  Name : String
deriving Repr, DecidableEq

/-- Azure SDK `compute.Encryption` (disk encryption settings). -/
structure DiskEncryption where
  DiskEncryptionSetID : Option String := none
deriving Repr, DecidableEq

/-- Azure SDK `compute.Disk` as returned by `disksClient.Get`, with the
embedded `DiskProperties` inlined (Go promotes its fields). -/
structure DiskInfo where
  Sku : Option DiskSku := none
  DiskSizeGB : Option Int := none
  Encryption : Option DiskEncryption := none
deriving Repr, DecidableEq

/-- Outcome of a `disksClient.Get` call.  In the Azure SDK a 404 both sets
the error and marks the response as not-found
(`utils.ResponseWasNotFound`); any other failure carries an error whose
response is not a 404.  `found` is the success case. -/
inductive DiskGetResult where
  | found (disk : DiskInfo)
  | notFound
  | failure (err : String)
deriving Repr, DecidableEq

/-- Signature of `parse.ManagedDiskID`: either the parsed ID or an error. -/
def ManagedDiskIDParse : Type := String → Except String ParsedManagedDiskId

/-- Signature of `disksClient.Get` (resource group, disk name). -/
def DisksClientGet : Type := String → String → DiskGetResult

/-- The flattened `os_disk` block produced by
`flattenVirtualMachineOSDisk`. -/
structure FlatOSDisk where
  caching : String
  disk_size_gb : Int
  diff_disk_settings : List DiffDiskSettingsConfig
  disk_encryption_set_id : String
  name : String
  storage_account_type : String
  write_accelerator_enabled : Bool
deriving Repr, DecidableEq

/-- Go `flattenVirtualMachineOSDisk`.  When a managed-disk ID is present
it parses the ID and calls the disks client; a not-found response is
tolerated (the locally available fields are used), while any other
lookup failure or a parse failure is returned as the error. -/
def flattenVirtualMachineOSDisk (parseManagedDiskID : ManagedDiskIDParse)
    (disksClientGet : DisksClientGet) (input : Option OSDisk) :
    Except String (List FlatOSDisk) :=
  match input with
  | none => .ok []
  | some input =>
    let diffDiskSettings : List DiffDiskSettingsConfig :=
      match input.DiffDiskSettings with
      | none => []
      | some s => [{ option := s.Option' }]
    let diskSizeGb : Int :=
      match input.DiskSizeGB with
      | some v => if v ≠ 0 then v else 0
      | none => 0
    let name : String := input.Name.getD ""
    let fromLookup : Except String (String × Int × String) :=
      match input.ManagedDisk with
      | none => .ok ("", diskSizeGb, "")
      | some md =>
        let storageAccountType := md.StorageAccountType
        match md.ID with
        | none => .ok (storageAccountType, diskSizeGb, "")
        | some rawId =>
          match parseManagedDiskID rawId with
          | .error e => .error e
          | .ok id =>
            match disksClientGet id.ResourceGroup id.Name with
            | .failure e => .error e
            | .notFound => .ok (storageAccountType, diskSizeGb, "")
            | .found disk =>
              let storageAccountType :=
                match disk.Sku with
                | some sku => if storageAccountType = "" then sku.Name else storageAccountType
                | none => storageAccountType
              let diskSizeGb :=
                if diskSizeGb = 0 then
                  match disk.DiskSizeGB with
                  | some v => v
                  | none => diskSizeGb
                else diskSizeGb
              let diskEncryptionSetId :=
                match disk.Encryption with
                | some enc => enc.DiskEncryptionSetID.getD ""
                | none => ""
              .ok (storageAccountType, diskSizeGb, diskEncryptionSetId)
    match fromLookup with
    | .error e => .error e
    | .ok (storageAccountType, diskSizeGb, diskEncryptionSetId) =>
      .ok [{ caching := input.Caching,
             disk_size_gb := diskSizeGb,
             diff_disk_settings := diffDiskSettings,
             disk_encryption_set_id := diskEncryptionSetId,
             name := name,
             storage_account_type := storageAccountType,
             write_accelerator_enabled := input.WriteAcceleratorEnabled.getD false }]

/-- One element of the `data_disk` block.  Absent optional keys read as
the schema zero values; `create_option` is computed-only and is empty on
the first create pass. -/
structure DataDiskConfig where
  lun : Int
  caching : String
  name : String
  storage_account_type : String
  disk_encryption_set_id : String
  disk_size_gb : Int
  managed_disk_id : String
  write_accelerator_enabled : Bool
  create_option : String
deriving Repr, DecidableEq

/-- Azure SDK `compute.DataDisk` (the fields this module touches). -/
structure DataDisk where
  Lun : Option Int
  Caching : String
  CreateOption : String
  ManagedDisk : Option ManagedDiskParameters
  Name : Option String := none
  DiskSizeGB : Option Int := none
  WriteAcceleratorEnabled : Option Bool := none
  DiskIOPSReadWrite : Option Int := none
  DiskMBpsReadWrite : Option Int := none
deriving Repr, DecidableEq

/-- Go `%q` formatting of a string: surround with double quotes. -/
def goQuote (s : String) : String := "\"" ++ s ++ "\""

/-- The body of the loop in Go `expandVirtualMachineDataDisks`, for one
`data_disk` entry.  When a managed-disk ID is supplied the ID is parsed
and the disk is fetched; either failure aborts with an error, success
overwrites the size with the fetched one and, when `create_option` is
still empty, switches the create option to `Attach`. -/
def expandVirtualMachineDataDisk (parseManagedDiskID : ManagedDiskIDParse)
    (disksClientGet : DisksClientGet) (disk : DataDiskConfig) :
    Except String DataDisk :=
  let dataDisk : DataDisk :=
    { Lun := some disk.lun,
      Caching := disk.caching,
      CreateOption := DiskCreateOptionTypesEmpty,
      ManagedDisk := some { StorageAccountType := disk.storage_account_type },
      Name := some disk.name,
      DiskSizeGB := some disk.disk_size_gb }
  let afterManagedDisk : Except String DataDisk :=
    if disk.managed_disk_id ≠ "" then
      match parseManagedDiskID disk.managed_disk_id with
      | .error _ =>
        .error ("failed to parse Managed Disk ID for Data Disk " ++ goQuote disk.name)
      | .ok dataDiskId =>
        match disksClientGet dataDiskId.ResourceGroup dataDiskId.Name with
        | .found existingDisk =>
          let d := { dataDisk with
            ManagedDisk := dataDisk.ManagedDisk.map fun md =>
              { md with ID := some disk.managed_disk_id },
            DiskSizeGB := existingDisk.DiskSizeGB }
          .ok (if disk.create_option = "" then
              { d with CreateOption := DiskCreateOptionTypesAttach }
            else d)
        | _ =>
          .error ("failed to retrieve Managed Disk information for Data Disk " ++
            goQuote dataDiskId.Name ++ " (resource group " ++
            goQuote dataDiskId.ResourceGroup ++ ")")
    else
      .ok dataDisk
  match afterManagedDisk with
  | .error e => .error e
  | .ok dataDisk =>
    let dataDisk :=
      if disk.disk_encryption_set_id ≠ "" then
        { dataDisk with ManagedDisk := dataDisk.ManagedDisk.map fun md =>
            { md with DiskEncryptionSet := some { ID := some disk.disk_encryption_set_id } } }
      else dataDisk
    .ok { dataDisk with WriteAcceleratorEnabled := some disk.write_accelerator_enabled }

/-- Go `expandVirtualMachineDataDisks`: processes the `data_disk` entries
in order, stopping at the first failing entry.  An unset `data_disk`
attribute behaves as the empty list. -/
def expandVirtualMachineDataDisks (parseManagedDiskID : ManagedDiskIDParse)
    (disksClientGet : DisksClientGet) (dataDisks : List DataDiskConfig) :
    Except String (List DataDisk) :=
  match dataDisks with
  | [] => .ok []
  | v :: rest =>
    match expandVirtualMachineDataDisk parseManagedDiskID disksClientGet v with
    | .error e => .error e
    | .ok dataDisk =>
      match expandVirtualMachineDataDisks parseManagedDiskID disksClientGet rest with
      | .error e => .error e
      | .ok result => .ok (dataDisk :: result)

/-- The flattened `data_disk` block produced by
`flattenVirtualMachineDataDisks`. -/
structure FlatDataDisk where
  name : String
  lun : Int
  caching : String
  storage_account_type : String
  managed_disk_id : String
  disk_encryption_set_id : String
  disk_size_gb : Int
  create_option : String
  write_accelerator_enabled : Bool
  disk_iops_read_write : Int
  disk_mbps_read_write : Int
deriving Repr, DecidableEq

/-- Go `flattenVirtualMachineDataDisks`: each API disk flattens to one
block, with nil pointers read as the schema zero values. -/
def flattenVirtualMachineDataDisks (input : Option (List DataDisk)) :
    List FlatDataDisk :=
  match input with
  | none => []
  | some l =>
    l.map fun v =>
      { name := v.Name.getD "",
        lun := v.Lun.getD 0,
        caching := v.Caching,
        storage_account_type :=
          match v.ManagedDisk with
          | none => ""
          | some md => md.StorageAccountType,
        managed_disk_id :=
          match v.ManagedDisk with
          | none => ""
          | some md => md.ID.getD "",
        disk_encryption_set_id :=
          match v.ManagedDisk with
          | none => ""
          | some md =>
            match md.DiskEncryptionSet with
            | none => ""
            | some des => des.ID.getD "",
        disk_size_gb := v.DiskSizeGB.getD 0,
        create_option := v.CreateOption,
        write_accelerator_enabled := v.WriteAcceleratorEnabled.getD false,
        disk_iops_read_write := v.DiskIOPSReadWrite.getD 0,
        disk_mbps_read_write := v.DiskMBpsReadWrite.getD 0 }

/-- C5: expanding a one-element capability block carrying the boolean `b`
and flattening the result reproduces the one-element block with `b`. -/
theorem capabilities_expand_flatten_roundtrip (b : Bool) :
    flattenVirtualMachineAdditionalCapabilities
      (some (expandVirtualMachineAdditionalCapabilities [{ ultra_ssd_enabled := b }])) =
    [{ ultra_ssd_enabled := b }] := rfl

/-- C4 counterexample: `expandVirtualMachineOSDisk` does not return a disk
for every input list: the Go code indexes `input[0]` with no length
check, so the empty list is a runtime failure (modelled as `none`). -/
theorem expandVirtualMachineOSDisk_nil_fails :
    expandVirtualMachineOSDisk [] "Linux" = none := rfl

/-- C4 (amended): every function other than the two that perform a disk
lookup is a pure, total computation; `expandVirtualMachineOSDisk`
returns a disk for every non-empty input list. -/
theorem expandVirtualMachineOSDisk_total_on_nonempty (raw : OSDiskConfig)
    (rest : List OSDiskConfig) (osType : String) :
    ∃ d, expandVirtualMachineOSDisk (raw :: rest) osType = some d :=
  ⟨_, rfl⟩

/-- The `os_disk` input mapping of the end-to-end example: caching
"ReadWrite", storage account type "Premium_LRS", size 0, all optional
keys at their schema zero values. -/
def exampleOSDiskConfig : OSDiskConfig :=
  { caching := "ReadWrite", storage_account_type := "Premium_LRS",
    diff_disk_settings := [], disk_encryption_set_id := "", disk_size_gb := 0,
    name := "", write_accelerator_enabled := false }

/-- The API object the example mapping expands to. -/
def exampleOSDiskAPIObject (osType : String) : OSDisk :=
  { Caching := "ReadWrite",
    ManagedDisk := some { StorageAccountType := "Premium_LRS" },
    WriteAcceleratorEnabled := some false,
    CreateOption := DiskCreateOptionTypesFromImage,
    OsType := osType }

/-- The flattened mapping of the end-to-end example. -/
def exampleFlatOSDisk : FlatOSDisk :=
  { caching := "ReadWrite", disk_size_gb := 0, diff_disk_settings := [],
    disk_encryption_set_id := "", name := "", storage_account_type := "Premium_LRS",
    write_accelerator_enabled := false }

/-- C8: the example mapping expands to an API object with `DiskSizeGB`
unset and create option "FromImage"; flattening that object (which
carries no managed-disk ID, so no lookup match can exist) yields the
expected mapping with size 0, empty name/encryption-set, write
accelerator false and no diff-disk settings. -/
theorem osdisk_end_to_end_example (osType : String)
    (parseManagedDiskID : ManagedDiskIDParse) (disksClientGet : DisksClientGet) :
    expandVirtualMachineOSDisk [exampleOSDiskConfig] osType =
      some (exampleOSDiskAPIObject osType) ∧
    (exampleOSDiskAPIObject osType).DiskSizeGB = none ∧
    (exampleOSDiskAPIObject osType).CreateOption = DiskCreateOptionTypesFromImage ∧
    flattenVirtualMachineOSDisk parseManagedDiskID disksClientGet
      (some (exampleOSDiskAPIObject osType)) = .ok [exampleFlatOSDisk] :=
  ⟨rfl, rfl, rfl, rfl⟩

/-- C1: for an identity kind other than the two `UserAssigned` variants, a
non-empty identity-reference set makes `expandVirtualMachineIdentity`
return the validation error (and no identity), and an empty set makes it
succeed for every such kind. -/
theorem identity_ids_require_user_assigned (c : IdentityConfig)
    (h1 : c.type ≠ ResourceIdentityTypeUserAssigned)
    (h2 : c.type ≠ ResourceIdentityTypeSystemAssignedUserAssigned) :
    (c.identity_ids ≠ [] →
      expandVirtualMachineIdentity [c] =
        .error "`identity_ids` can only be specified when `type` includes `UserAssigned`") ∧
    (c.identity_ids = [] →
      expandVirtualMachineIdentity [c] = .ok { Type' := c.type }) := by
  constructor
  · intro hne
    have hcard : 0 < c.identity_ids.toFinset.card := by
      rcases List.exists_cons_of_ne_nil hne with ⟨a, t, hat⟩
      exact Finset.card_pos.mpr ⟨a, by simp [hat]⟩
    simp [expandVirtualMachineIdentity, hcard, h1, h2]
  · intro he
    simp [expandVirtualMachineIdentity, he]

/-- Witness for C1 at the concrete kind "SystemAssigned". -/
theorem identity_ids_require_user_assigned_witness :
    (expandVirtualMachineIdentity
        [{ type := "SystemAssigned", identity_ids := ["a"] }] =
      .error "`identity_ids` can only be specified when `type` includes `UserAssigned`") ∧
    (expandVirtualMachineIdentity
        [{ type := "SystemAssigned", identity_ids := [] }] =
      .ok { Type' := "SystemAssigned" }) :=
  ⟨(identity_ids_require_user_assigned
      { type := "SystemAssigned", identity_ids := ["a"] }
      (by decide) (by decide)).1 (by decide),
   (identity_ids_require_user_assigned
      { type := "SystemAssigned", identity_ids := [] }
      (by decide) (by decide)).2 rfl⟩

/-- Expanding a "UserAssigned" identity block always succeeds, and
flattening the result exposes exactly the set of the listed
identifiers. -/
theorem flatten_expand_user_assigned (l : List String) :
    ∃ i, expandVirtualMachineIdentity
        [{ type := ResourceIdentityTypeUserAssigned, identity_ids := l }] = .ok i ∧
      flattenVirtualMachineIdentity (some i) =
        [{ type := ResourceIdentityTypeUserAssigned, identity_ids := l.toFinset,
           principal_id := "", tenant_id := "" }] := by
  by_cases h : 0 < l.toFinset.card
  · refine ⟨⟨ResourceIdentityTypeUserAssigned, some l.toFinset, none, none⟩, ?_, ?_⟩
    · simp [expandVirtualMachineIdentity, h, ResourceIdentityTypeUserAssigned,
        ResourceIdentityTypeSystemAssignedUserAssigned]
    · simp [flattenVirtualMachineIdentity, ResourceIdentityTypeUserAssigned,
        ResourceIdentityTypeNone]
  · have hempty : l.toFinset = ∅ := by
      simpa using Finset.card_eq_zero.mp (Nat.eq_zero_of_not_pos h)
    refine ⟨{ Type' := ResourceIdentityTypeUserAssigned }, ?_, ?_⟩
    · simp [expandVirtualMachineIdentity, h]
    · simp [flattenVirtualMachineIdentity, ResourceIdentityTypeUserAssigned,
        ResourceIdentityTypeNone, hempty]

/-- C6: expanding a "UserAssigned" identity block over a duplicate-free
list of N references and flattening the result yields exactly the set of
those N identifiers, and the result is the same for any reordering of
the list. -/
theorem identity_expand_flatten_preserves_ids (ids ids' : List String)
    (hnd : ids.Nodup) (hperm : ids'.Perm ids) :
    ∃ i i',
      expandVirtualMachineIdentity
        [{ type := ResourceIdentityTypeUserAssigned, identity_ids := ids }] = .ok i ∧
      expandVirtualMachineIdentity
        [{ type := ResourceIdentityTypeUserAssigned, identity_ids := ids' }] = .ok i' ∧
      flattenVirtualMachineIdentity (some i) = flattenVirtualMachineIdentity (some i') ∧
      flattenVirtualMachineIdentity (some i) =
        [{ type := ResourceIdentityTypeUserAssigned, identity_ids := ids.toFinset,
           principal_id := "", tenant_id := "" }] ∧
      ids.toFinset.card = ids.length := by
  obtain ⟨i, hi, hfi⟩ := flatten_expand_user_assigned ids
  obtain ⟨i', hi', hfi'⟩ := flatten_expand_user_assigned ids'
  have hsets : ids'.toFinset = ids.toFinset := by
    ext a
    simp [List.mem_toFinset, hperm.mem_iff]
  refine ⟨i, i', hi, hi', ?_, hfi, List.toFinset_card_of_nodup hnd⟩
  rw [hfi, hfi', hsets]

/-- Witness for C6 with the two-element list ["a", "b"] and its
reversal. -/
theorem identity_expand_flatten_preserves_ids_witness :
    ∃ i i',
      expandVirtualMachineIdentity
        [{ type := ResourceIdentityTypeUserAssigned, identity_ids := ["a", "b"] }] = .ok i ∧
      expandVirtualMachineIdentity
        [{ type := ResourceIdentityTypeUserAssigned, identity_ids := ["b", "a"] }] = .ok i' ∧
      flattenVirtualMachineIdentity (some i) = flattenVirtualMachineIdentity (some i') ∧
      flattenVirtualMachineIdentity (some i) =
        [{ type := ResourceIdentityTypeUserAssigned,
           identity_ids := (["a", "b"] : List String).toFinset,
           principal_id := "", tenant_id := "" }] ∧
      (["a", "b"] : List String).toFinset.card = (["a", "b"] : List String).length :=
  identity_expand_flatten_preserves_ids ["a", "b"] ["b", "a"]
    (by decide) (List.Perm.swap "a" "b" [])

/-- C7: expanding an `os_disk` block whose `disk_size_gb` is 0 leaves
`DiskSizeGB` unset on the produced disk, and flattening an API disk
whose `DiskSizeGB` is null and whose managed disk carries no ID (so no
lookup can supply a size) reports `disk_size_gb` as 0. -/
theorem osdisk_size_zero_unset_and_flatten_zero (raw : OSDiskConfig)
    (rest : List OSDiskConfig) (osType : String)
    (parseManagedDiskID : ManagedDiskIDParse) (disksClientGet : DisksClientGet)
    (input : OSDisk) (md : ManagedDiskParameters)
    (hraw : raw.disk_size_gb = 0)
    (hsz : input.DiskSizeGB = none) (hmd : input.ManagedDisk = some md)
    (hid : md.ID = none) :
    (∃ d, expandVirtualMachineOSDisk (raw :: rest) osType = some d ∧
      d.DiskSizeGB = none) ∧
    (∃ m, flattenVirtualMachineOSDisk parseManagedDiskID disksClientGet (some input) =
      .ok [m] ∧ m.disk_size_gb = 0) := by
  constructor
  · rcases raw with ⟨c, sat, dds, des, sz, nm, wa⟩
    simp only [OSDiskConfig.disk_size_gb] at hraw
    subst hraw
    cases dds <;> by_cases hdes : des = "" <;> by_cases hnm : nm = "" <;>
      simp [expandVirtualMachineOSDisk, hdes, hnm]
  · rcases input with ⟨ca, mdo, wao, co, ot, szo, ddso, no⟩
    simp only [OSDisk.DiskSizeGB, OSDisk.ManagedDisk] at hsz hmd
    subst hsz hmd
    simp [flattenVirtualMachineOSDisk, hid]

/-- Witness for C7 at a concrete configuration and API object. -/
theorem osdisk_size_zero_unset_and_flatten_zero_witness :
    (∃ d, expandVirtualMachineOSDisk
        [{ caching := "None", storage_account_type := "Standard_LRS",
           diff_disk_settings := [], disk_encryption_set_id := "",
           disk_size_gb := 0, name := "", write_accelerator_enabled := false }]
        "Linux" = some d ∧ d.DiskSizeGB = none) ∧
    (∃ m, flattenVirtualMachineOSDisk (fun s => .error s) (fun _ _ => .notFound)
        (some { Caching := "None",
                ManagedDisk := some { StorageAccountType := "Standard_LRS" },
                WriteAcceleratorEnabled := some false,
                CreateOption := "FromImage", OsType := "Linux" }) =
      .ok [m] ∧ m.disk_size_gb = 0) :=
  osdisk_size_zero_unset_and_flatten_zero
    { caching := "None", storage_account_type := "Standard_LRS",
      diff_disk_settings := [], disk_encryption_set_id := "",
      disk_size_gb := 0, name := "", write_accelerator_enabled := false }
    [] "Linux" (fun s => .error s) (fun _ _ => .notFound)
    { Caching := "None",
      ManagedDisk := some { StorageAccountType := "Standard_LRS" },
      WriteAcceleratorEnabled := some false,
      CreateOption := "FromImage", OsType := "Linux" }
    { StorageAccountType := "Standard_LRS" }
    rfl rfl rfl rfl


/-- The `DataDisk` produced for an entry whose managed-disk ID parses and
whose lookup finds the disk: the fetched size replaces the user one, the
supplied ID is set, and the create option becomes `Attach` exactly when
the entry's `create_option` was still empty. -/
def dataDiskFromLookup (disk : DataDiskConfig) (existingDisk : DiskInfo) : DataDisk :=
  { Lun := some disk.lun,
    Caching := disk.caching,
    CreateOption :=
      if disk.create_option = "" then DiskCreateOptionTypesAttach
      else DiskCreateOptionTypesEmpty,
    ManagedDisk :=
      some
        { StorageAccountType := disk.storage_account_type,
          DiskEncryptionSet :=
            if disk.disk_encryption_set_id ≠ "" then
              some { ID := some disk.disk_encryption_set_id }
            else none,
          ID := some disk.managed_disk_id },
    Name := some disk.name,
    DiskSizeGB := existingDisk.DiskSizeGB,
    WriteAcceleratorEnabled := some disk.write_accelerator_enabled }

/-- When a managed-disk ID is supplied, parses, and the lookup finds the
disk, the per-entry data-disk expansion returns exactly
`dataDiskFromLookup`. -/
theorem expandVirtualMachineDataDisk_found_eq (parseManagedDiskID : ManagedDiskIDParse)
    (disksClientGet : DisksClientGet) (disk : DataDiskConfig)
    (pid : ParsedManagedDiskId) (existingDisk : DiskInfo)
    (hid : disk.managed_disk_id ≠ "")
    (hparse : parseManagedDiskID disk.managed_disk_id = .ok pid)
    (hget : disksClientGet pid.ResourceGroup pid.Name = .found existingDisk) :
    expandVirtualMachineDataDisk parseManagedDiskID disksClientGet disk =
      .ok (dataDiskFromLookup disk existingDisk) := by
  by_cases hdes : disk.disk_encryption_set_id = "" <;>
    by_cases hco : disk.create_option = "" <;>
      simp [expandVirtualMachineDataDisk, dataDiskFromLookup, hid, hparse, hget, hdes, hco]

/-- C2: a data-disk entry that supplies a managed-disk ID, a non-empty
name, and an empty `create_option` expands — once parsing and the disk
lookup succeed — to a `DataDisk` whose create option is "Attach" (not
"Empty") and whose `ManagedDisk.ID` is the supplied identifier. -/
theorem datadisk_managed_id_yields_attach (parseManagedDiskID : ManagedDiskIDParse)
    (disksClientGet : DisksClientGet) (disk : DataDiskConfig)
    (pid : ParsedManagedDiskId) (existingDisk : DiskInfo)
    (hid : disk.managed_disk_id ≠ "") (hname : disk.name ≠ "")
    (hco : disk.create_option = "")
    (hparse : parseManagedDiskID disk.managed_disk_id = .ok pid)
    (hget : disksClientGet pid.ResourceGroup pid.Name = .found existingDisk) :
    ∃ dd md, expandVirtualMachineDataDisks parseManagedDiskID disksClientGet [disk] =
        .ok [dd] ∧
      dd.CreateOption = DiskCreateOptionTypesAttach ∧
      dd.CreateOption ≠ DiskCreateOptionTypesEmpty ∧
      dd.ManagedDisk = some md ∧ md.ID = some disk.managed_disk_id := by
  refine ⟨dataDiskFromLookup disk existingDisk, _, ?_, ?_, ?_, rfl, rfl⟩
  · simp [expandVirtualMachineDataDisks,
      expandVirtualMachineDataDisk_found_eq parseManagedDiskID disksClientGet disk
        pid existingDisk hid hparse hget]
  · simp [dataDiskFromLookup, hco]
  · simp [dataDiskFromLookup, hco, DiskCreateOptionTypesAttach, DiskCreateOptionTypesEmpty]

/-- Witness for C2 at a concrete entry, parser and client. -/
theorem datadisk_managed_id_yields_attach_witness :
    ∃ dd md, expandVirtualMachineDataDisks (fun _ => .ok ⟨"group1", "disk1"⟩)
        (fun _ _ => .found { DiskSizeGB := some 10 })
        [{ lun := 0, caching := "None", name := "dd1",
           storage_account_type := "Standard_LRS", disk_encryption_set_id := "",
           disk_size_gb := 0, managed_disk_id := "id1",
           write_accelerator_enabled := false, create_option := "" }] = .ok [dd] ∧
      dd.CreateOption = DiskCreateOptionTypesAttach ∧
      dd.CreateOption ≠ DiskCreateOptionTypesEmpty ∧
      dd.ManagedDisk = some md ∧ md.ID = some "id1" :=
  datadisk_managed_id_yields_attach (fun _ => .ok ⟨"group1", "disk1"⟩)
    (fun _ _ => .found { DiskSizeGB := some 10 })
    { lun := 0, caching := "None", name := "dd1",
      storage_account_type := "Standard_LRS", disk_encryption_set_id := "",
      disk_size_gb := 0, managed_disk_id := "id1",
      write_accelerator_enabled := false, create_option := "" }
    ⟨"group1", "disk1"⟩ { DiskSizeGB := some 10 }
    (by decide) (by decide) rfl rfl rfl

/-- C10: for a data-disk entry that supplies both a `disk_size_gb` value
and a managed-disk ID, a successful lookup makes the produced `DataDisk`
carry the looked-up size, overwriting the user-specified value. -/
theorem datadisk_lookup_size_overwrites (parseManagedDiskID : ManagedDiskIDParse)
    (disksClientGet : DisksClientGet) (disk : DataDiskConfig)
    (pid : ParsedManagedDiskId) (existingDisk : DiskInfo)
    (hsz : disk.disk_size_gb ≠ 0) (hid : disk.managed_disk_id ≠ "")
    (hparse : parseManagedDiskID disk.managed_disk_id = .ok pid)
    (hget : disksClientGet pid.ResourceGroup pid.Name = .found existingDisk) :
    ∃ dd, expandVirtualMachineDataDisks parseManagedDiskID disksClientGet [disk] =
        .ok [dd] ∧ dd.DiskSizeGB = existingDisk.DiskSizeGB := by
  refine ⟨dataDiskFromLookup disk existingDisk, ?_, rfl⟩
  simp [expandVirtualMachineDataDisks,
    expandVirtualMachineDataDisk_found_eq parseManagedDiskID disksClientGet disk
      pid existingDisk hid hparse hget]

/-- Witness for C10: the user asks for 5 GB, the lookup reports 100 GB. -/
theorem datadisk_lookup_size_overwrites_witness :
    ∃ dd, expandVirtualMachineDataDisks (fun _ => .ok ⟨"group1", "disk1"⟩)
        (fun _ _ => .found { DiskSizeGB := some 100 })
        [{ lun := 0, caching := "None", name := "dd1",
           storage_account_type := "Standard_LRS", disk_encryption_set_id := "",
           disk_size_gb := 5, managed_disk_id := "id1",
           write_accelerator_enabled := false, create_option := "" }] = .ok [dd] ∧
      dd.DiskSizeGB = ({ DiskSizeGB := some 100 } : DiskInfo).DiskSizeGB :=
  datadisk_lookup_size_overwrites (fun _ => .ok ⟨"group1", "disk1"⟩)
    (fun _ _ => .found { DiskSizeGB := some 100 })
    { lun := 0, caching := "None", name := "dd1",
      storage_account_type := "Standard_LRS", disk_encryption_set_id := "",
      disk_size_gb := 5, managed_disk_id := "id1",
      write_accelerator_enabled := false, create_option := "" }
    ⟨"group1", "disk1"⟩ { DiskSizeGB := some 100 }
    (by decide) (by decide) rfl rfl

/-- If any entry of the `data_disk` list fails to expand, the whole
list-level expansion returns an error (the first one hit), so no disk
list is produced. -/
theorem expandVirtualMachineDataDisks_error_of_mem
    (parseManagedDiskID : ManagedDiskIDParse) (disksClientGet : DisksClientGet)
    (l : List DataDiskConfig) (disk : DataDiskConfig) (e : String)
    (hmem : disk ∈ l)
    (hone : expandVirtualMachineDataDisk parseManagedDiskID disksClientGet disk =
      .error e) :
    ∃ e2, expandVirtualMachineDataDisks parseManagedDiskID disksClientGet l =
      .error e2 := by
  induction l with
  | nil => cases hmem
  | cons x rest ih =>
    rcases List.mem_cons.mp hmem with h | h
    · subst h
      exact ⟨e, by simp [expandVirtualMachineDataDisks, hone]⟩
    · cases hx : expandVirtualMachineDataDisk parseManagedDiskID disksClientGet x with
      | error e1 => exact ⟨e1, by simp [expandVirtualMachineDataDisks, hx]⟩
      | ok dd =>
        obtain ⟨e2, he2⟩ := ih h
        exact ⟨e2, by simp [expandVirtualMachineDataDisks, hx, he2]⟩

/-- C9: for a data-disk entry that supplies a managed-disk ID, when the
disk lookup fails (whether not-found or any other failure), the entry's
expansion yields the error naming the disk, and the list-level expansion
returns an error and no disk list. -/
theorem datadisk_lookup_failure_names_disk (parseManagedDiskID : ManagedDiskIDParse)
    (disksClientGet : DisksClientGet) (l : List DataDiskConfig)
    (disk : DataDiskConfig) (pid : ParsedManagedDiskId)
    (hmem : disk ∈ l) (hid : disk.managed_disk_id ≠ "")
    (hparse : parseManagedDiskID disk.managed_disk_id = .ok pid)
    (hget : ∀ d, disksClientGet pid.ResourceGroup pid.Name ≠ .found d) :
    expandVirtualMachineDataDisk parseManagedDiskID disksClientGet disk =
      .error ("failed to retrieve Managed Disk information for Data Disk " ++
        goQuote pid.Name ++ " (resource group " ++ goQuote pid.ResourceGroup ++ ")") ∧
    ∃ e2, expandVirtualMachineDataDisks parseManagedDiskID disksClientGet l =
      .error e2 := by
  have hone : expandVirtualMachineDataDisk parseManagedDiskID disksClientGet disk =
      .error ("failed to retrieve Managed Disk information for Data Disk " ++
        goQuote pid.Name ++ " (resource group " ++ goQuote pid.ResourceGroup ++ ")") := by
    cases hres : disksClientGet pid.ResourceGroup pid.Name with
    | found d => exact absurd hres (hget d)
    | notFound => simp [expandVirtualMachineDataDisk, hid, hparse, hres]
    | failure e => simp [expandVirtualMachineDataDisk, hid, hparse, hres]
  exact ⟨hone, expandVirtualMachineDataDisks_error_of_mem parseManagedDiskID
    disksClientGet l disk _ hmem hone⟩

/-- Witness for C9: the client reports a non-404 failure for the only
entry. -/
theorem datadisk_lookup_failure_names_disk_witness :
    expandVirtualMachineDataDisk (fun _ => .ok ⟨"group1", "disk1"⟩)
        (fun _ _ => .failure "boom")
        { lun := 0, caching := "None", name := "dd1",
          storage_account_type := "Standard_LRS", disk_encryption_set_id := "",
          disk_size_gb := 0, managed_disk_id := "id1",
          write_accelerator_enabled := false, create_option := "" } =
      .error ("failed to retrieve Managed Disk information for Data Disk " ++
        goQuote "disk1" ++ " (resource group " ++ goQuote "group1" ++ ")") ∧
    ∃ e2, expandVirtualMachineDataDisks (fun _ => .ok ⟨"group1", "disk1"⟩)
        (fun _ _ => .failure "boom")
        [{ lun := 0, caching := "None", name := "dd1",
           storage_account_type := "Standard_LRS", disk_encryption_set_id := "",
           disk_size_gb := 0, managed_disk_id := "id1",
           write_accelerator_enabled := false, create_option := "" }] = .error e2 :=
  datadisk_lookup_failure_names_disk (fun _ => .ok ⟨"group1", "disk1"⟩)
    (fun _ _ => .failure "boom")
    [{ lun := 0, caching := "None", name := "dd1",
       storage_account_type := "Standard_LRS", disk_encryption_set_id := "",
       disk_size_gb := 0, managed_disk_id := "id1",
       write_accelerator_enabled := false, create_option := "" }]
    { lun := 0, caching := "None", name := "dd1",
      storage_account_type := "Standard_LRS", disk_encryption_set_id := "",
      disk_size_gb := 0, managed_disk_id := "id1",
      write_accelerator_enabled := false, create_option := "" }
    ⟨"group1", "disk1"⟩
    (by simp) (by decide) rfl
    (fun d h => DiskGetResult.noConfusion h)

/-- The flattened `os_disk` mapping built from the locally available
fields alone: what `flattenVirtualMachineOSDisk` returns when the
managed-disk lookup supplies nothing. -/
def flatOSDiskLocal (input : OSDisk) (md : ManagedDiskParameters) : FlatOSDisk :=
  { caching := input.Caching,
    disk_size_gb :=
      match input.DiskSizeGB with
      | some v => if v ≠ 0 then v else 0
      | none => 0,
    diff_disk_settings :=
      match input.DiffDiskSettings with
      | none => []
      | some s => [{ option := s.Option' }],
    disk_encryption_set_id := "",
    name := input.Name.getD "",
    storage_account_type := md.StorageAccountType,
    write_accelerator_enabled := input.WriteAcceleratorEnabled.getD false }

/-- C3: for an OS disk whose managed-disk identifier parses, a not-found
lookup response is tolerated — flattening succeeds with the mapping
built from the locally available fields — while any other lookup
failure is returned as the error, with no mapping. -/
theorem flatten_osdisk_tolerates_not_found (parseManagedDiskID : ManagedDiskIDParse)
    (disksClientGet : DisksClientGet) (input : OSDisk)
    (md : ManagedDiskParameters) (rawId : String) (pid : ParsedManagedDiskId)
    (hmd : input.ManagedDisk = some md) (hmdid : md.ID = some rawId)
    (hparse : parseManagedDiskID rawId = .ok pid) :
    (disksClientGet pid.ResourceGroup pid.Name = .notFound →
      flattenVirtualMachineOSDisk parseManagedDiskID disksClientGet (some input) =
        .ok [flatOSDiskLocal input md]) ∧
    (∀ e, disksClientGet pid.ResourceGroup pid.Name = .failure e →
      flattenVirtualMachineOSDisk parseManagedDiskID disksClientGet (some input) =
        .error e) := by
  constructor
  · intro hnf
    rcases input with ⟨ca, mdo, wao, co, ot, szo, ddso, no⟩
    simp only [OSDisk.ManagedDisk] at hmd
    subst hmd
    simp [flattenVirtualMachineOSDisk, flatOSDiskLocal, hmdid, hparse, hnf]
  · intro e hfail
    rcases input with ⟨ca, mdo, wao, co, ot, szo, ddso, no⟩
    simp only [OSDisk.ManagedDisk] at hmd
    subst hmd
    simp [flattenVirtualMachineOSDisk, hmdid, hparse, hfail]

/-- Witness for C3: a not-found client and a failing client on the same
concrete OS disk. -/
theorem flatten_osdisk_tolerates_not_found_witness :
    (flattenVirtualMachineOSDisk (fun _ => .ok ⟨"group1", "disk1"⟩)
        (fun _ _ => .notFound)
        (some { Caching := "None",
                ManagedDisk := some { StorageAccountType := "Standard_LRS", ID := some "id1" },
                WriteAcceleratorEnabled := some false,
                CreateOption := "FromImage", OsType := "Linux" }) =
      .ok [flatOSDiskLocal
        { Caching := "None",
          ManagedDisk := some { StorageAccountType := "Standard_LRS", ID := some "id1" },
          WriteAcceleratorEnabled := some false,
          CreateOption := "FromImage", OsType := "Linux" }
        { StorageAccountType := "Standard_LRS", ID := some "id1" }]) ∧
    (flattenVirtualMachineOSDisk (fun _ => .ok ⟨"group1", "disk1"⟩)
        (fun _ _ => .failure "boom")
        (some { Caching := "None",
                ManagedDisk := some { StorageAccountType := "Standard_LRS", ID := some "id1" },
                WriteAcceleratorEnabled := some false,
                CreateOption := "FromImage", OsType := "Linux" }) =
      .error "boom") :=
  ⟨(flatten_osdisk_tolerates_not_found (fun _ => .ok ⟨"group1", "disk1"⟩)
      (fun _ _ => .notFound)
      { Caching := "None",
        ManagedDisk := some { StorageAccountType := "Standard_LRS", ID := some "id1" },
        WriteAcceleratorEnabled := some false,
        CreateOption := "FromImage", OsType := "Linux" }
      { StorageAccountType := "Standard_LRS", ID := some "id1" }
      "id1" ⟨"group1", "disk1"⟩ rfl rfl rfl).1 rfl,
   (flatten_osdisk_tolerates_not_found (fun _ => .ok ⟨"group1", "disk1"⟩)
      (fun _ _ => .failure "boom")
      { Caching := "None",
        ManagedDisk := some { StorageAccountType := "Standard_LRS", ID := some "id1" },
        WriteAcceleratorEnabled := some false,
        CreateOption := "FromImage", OsType := "Linux" }
      { StorageAccountType := "Standard_LRS", ID := some "id1" }
      "id1" ⟨"group1", "disk1"⟩ rfl rfl rfl).2 "boom" rfl⟩
